import Mathlib

/-!
Verification of the chef recipe backend: a shallow embedding of
src/src/python/chef/controllers.py (the resource controllers) and
src/chef-backend/app/models.py (the ORM entities and the recursive
serializer), with theorems settling the specification's claims.

Machine floats never undergo arithmetic in the modelled code (they are only
stored, copied and rendered), so numeric column values are modelled as Int.
-/

set_option maxRecDepth 4000

/-! ## Serialization engine (models.py: `_dictify`, `Base.get_dictionary`) -/

/-- A Python runtime value as seen by `_dictify` in models.py: `None`, an ORM
entity (a `Base` subclass instance, carrying its class name and the ordered
`__items__` field list), a list, a bool, a number, or a string. -/
inductive PyVal where
  | vnone : PyVal
  | vobj (cls : String) (fields : List (String × PyVal)) : PyVal
  | vlist (elems : List PyVal) : PyVal
  | vbool (b : Bool) : PyVal
  | vnum (n : Int) : PyVal
  | vstr (s : String) : PyVal

/-- The transfer structure produced by `_dictify`: JSON-ish values.  There is
no boolean constructor because `_dictify` has no branch producing one. -/
inductive DVal where
  | dnone : DVal
  | ddict (fields : List (String × DVal)) : DVal
  | dlist (elems : List DVal) : DVal
  | dnum (n : Int) : DVal
  | dstr (s : String) : DVal

/-- Python `str(obj)`.  For entities the default `__repr__` of models.py would
re-serialize the whole object; no claim inspects that text, so the rendering of
an entity (and of a bare list) is abstracted to a marker built from the class
name, while scalars render exactly as Python renders them. -/
def pstr : PyVal → String
  | .vnone => "None"
  | .vobj cls _ => "<" ++ cls ++ ">"
  | .vlist _ => "[...]"
  | .vbool b => if b then "True" else "False"
  | .vnum n => toString n
  | .vstr s => s

/-- Python `float(obj)` as used by `_dictify`: succeeds on bools (`True` is
1.0, `False` is 0.0) and numbers, succeeds on a purely numeric string, and
raises (here: `none`) on `None`, entities, lists and non-numeric strings. -/
def tryFloat : PyVal → Option Int
  | .vbool b => some (if b then 1 else 0)
  | .vnum n => some n
  | .vstr s => (s.toNat?).map Int.ofNat
  | _ => none

mutual

/-- models.py `_dictify(obj, depth)`: `None` stays `None`; a `Base` entity with
`depth > 0` serializes via `get_dictionary(depth-1)` (each field dictified at
`depth-1`); a list recurses at `depth-1` when `depth > 1` and otherwise maps
`str` over the elements; any remaining value is numerically coerced if
possible, else rendered by `str`. -/
def dictify (v : PyVal) (depth : Nat) : DVal :=
  match v with
  | .vnone => .dnone
  | .vobj cls fields =>
      if depth > 0 then
        .ddict (dictifyFields fields (depth - 1))
      else
        match tryFloat (.vobj cls fields) with
        | some n => .dnum n
        | none => .dstr (pstr (.vobj cls fields))
  | .vlist es =>
      if depth > 1 then
        .dlist (dictifyList es (depth - 1))
      else
        .dlist (es.map (fun e => .dstr (pstr e)))
  | v =>
      match tryFloat v with
      | some n => .dnum n
      | none => .dstr (pstr v)

/-- models.py `Base.get_dictionary(depth)` over a field list: each public
attribute value is passed to `_dictify` at the same depth. -/
def dictifyFields (fields : List (String × PyVal)) (depth : Nat) : List (String × DVal) :=
  match fields with
  | [] => []
  | (k, v) :: rest => (k, dictify v depth) :: dictifyFields rest depth

/-- `_dictify` mapped over the elements of a list value. -/
def dictifyList (es : List PyVal) (depth : Nat) : List DVal :=
  match es with
  | [] => []
  | e :: rest => dictify e depth :: dictifyList rest depth

end

/-- models.py `Base.get_dictionary(depth=99)` for an entity given as its
ordered public-field list. -/
def get_dictionary (fields : List (String × PyVal)) (depth : Nat := 99) : List (String × DVal) :=
  dictifyFields fields depth

theorem dictifyList_eq_map (es : List PyVal) (d : Nat) :
    dictifyList es d = es.map (fun e => dictify e d) := by
  induction es with
  | nil => rfl
  | cons e rest ih => simp [dictifyList, ih]

theorem dictifyFields_eq_map (fields : List (String × PyVal)) (d : Nat) :
    dictifyFields fields d = fields.map (fun kv => (kv.1, dictify kv.2 d)) := by
  induction fields with
  | nil => rfl
  | cons kv rest ih => cases kv; simp [dictifyFields, ih]

/-! ## Persisted entity rows (models.py column declarations)

Committed database state is modelled attribute-by-attribute: nullable and
defaultable columns are `Option`-valued, the integer primary key is a `Nat`.
Association tables (`ingredients`, `tags`, `category_tags`) appear as id lists
on the owning side. -/

/-- models.py `Unit`: name (unique, not null), grams (float, default 0). -/
structure UnitRow where
  id : Nat
  name : Option String
  grams : Option Int
deriving DecidableEq, Repr

/-- models.py `Tag`: name. -/
structure TagRow where
  id : Nat
  name : Option String
deriving DecidableEq, Repr

/-- models.py `Ingredient` columns. -/
structure IngredientRow where
  id : Nat
  name : Option String
  approx_per_piece : Option Int
  energy : Option Int
  fats : Option Int
  carbs : Option Int
  proteins : Option Int
  fibres : Option Int
  salt : Option Int
  is_liquid : Option Bool
  density : Option Int
deriving DecidableEq, Repr

/-- models.py `IngredientItem` columns (the `recipes` backref is the
`ingredients` association table, kept on `RecipeRow.itemIds`). -/
structure ItemRow where
  id : Nat
  ingredient_id : Option Nat
  amount : Option Int
  unit_id : Option Nat
  note : Option String
  exclude : Option Bool
deriving DecidableEq, Repr

/-- models.py `Category` with its `category_tags` many-to-many tag links. -/
structure CategoryRow where
  id : Nat
  name : Option String
  tagIds : List Nat
deriving DecidableEq, Repr

/-- models.py `Recipe` with its `ingredients` and `tags` association tables.
`tagIds` entries are `Option Nat` because the recipe merge routine appends the
result of `session.get` for each payload tag unchecked, which is null for an
unresolved id. -/
structure RecipeRow where
  id : Nat
  title : Option String
  subtitle : Option String
  source_name : Option String
  source : Option String
  draft : Option Bool
  portions : Option Int
  body : Option String
  itemIds : List Nat
  tagIds : List (Option Nat)
deriving DecidableEq, Repr

/-- `PyVal` of a nullable string attribute. -/
def pyOfOptStr : Option String → PyVal
  | none => .vnone
  | some s => .vstr s

/-- `PyVal` of a nullable float/int attribute. -/
def pyOfOptInt : Option Int → PyVal
  | none => .vnone
  | some n => .vnum n

/-- `PyVal` of a nullable boolean attribute. -/
def pyOfOptBool : Option Bool → PyVal
  | none => .vnone
  | some b => .vbool b

/-- The ordered public-field list `Ingredient.__items__` of models.py
(`["id", "name", "energy", "fats", "carbs", "proteins", "fibres", "salt",
"is_liquid", "density"]`) with the row's attribute values. -/
def ingredientPyFields (r : IngredientRow) : List (String × PyVal) :=
  [ ("id", .vnum (Int.ofNat r.id)),
    ("name", pyOfOptStr r.name),
    ("energy", pyOfOptInt r.energy),
    ("fats", pyOfOptInt r.fats),
    ("carbs", pyOfOptInt r.carbs),
    ("proteins", pyOfOptInt r.proteins),
    ("fibres", pyOfOptInt r.fibres),
    ("salt", pyOfOptInt r.salt),
    ("is_liquid", pyOfOptBool r.is_liquid),
    ("density", pyOfOptInt r.density) ]

/-- **C3.** When serializing an entity, a field holding an ordered collection
is emitted with the collection dictified at the entity's depth minus one; at a
collection whose remaining depth exceeds 1 each element is serialized
recursively with depth decremented by 1, and otherwise (depth exhausted) each
element is rendered as its display string, so the result is a flat list of
strings with no nested structures. -/
theorem claim_C3 :
    (∀ cls fields d k es, 0 < d → (k, PyVal.vlist es) ∈ fields →
      ∃ out, dictify (.vobj cls fields) d = .ddict out ∧
        (k, dictify (.vlist es) (d - 1)) ∈ out)
    ∧ (∀ es dc, 1 < dc →
        dictify (.vlist es) dc = .dlist (es.map (fun e => dictify e (dc - 1))))
    ∧ (∀ es dc, dc ≤ 1 →
        dictify (.vlist es) dc = .dlist (es.map (fun e => DVal.dstr (pstr e)))) := by
  refine ⟨?_, ?_, ?_⟩
  · intro cls fields d k es hd hmem
    refine ⟨dictifyFields fields (d - 1), ?_, ?_⟩
    · simp [dictify, hd]
    · rw [dictifyFields_eq_map]
      exact List.mem_map.mpr ⟨(k, .vlist es), hmem, rfl⟩
  · intro es dc hdc
    simp [dictify, hdc, dictifyList_eq_map]
  · intro es dc hdc
    have : ¬ dc > 1 := by omega
    simp [dictify, this]

/-- Witness for C3: a recipe-like entity serialized at depth 1 renders its
collection field as a list of display strings. -/
theorem claim_C3_witness :
    (∃ out,
      dictify (.vobj "Recipe" [("tags", PyVal.vlist [PyVal.vobj "Tag" [("name", PyVal.vstr "x")]])]) 1
        = .ddict out ∧
      ("tags", dictify (PyVal.vlist [PyVal.vobj "Tag" [("name", PyVal.vstr "x")]]) 0) ∈ out)
    ∧ dictify (PyVal.vlist [PyVal.vobj "Tag" [("name", PyVal.vstr "x")]]) 0
        = .dlist [.dstr "<Tag>"] := by
  constructor
  · exact claim_C3.1 "Recipe" _ 1 "tags" _ (by decide) (by simp)
  · rw [claim_C3.2.2 _ 0 (by decide)]
    rfl

/-- **C10.** A declared public field holding a boolean serializes as the
number 1 or 0 (Python `float(bool)` succeeds), never as a boolean or a display
string; in particular `Ingredient.is_liquid` in the full ingredient dictionary.
-/
theorem claim_C10 (b : Bool) :
    (∀ fields k d, (k, PyVal.vbool b) ∈ fields →
      (k, DVal.dnum (if b then 1 else 0)) ∈ dictifyFields fields d)
    ∧ (∀ r : IngredientRow, r.is_liquid = some b →
        List.lookup "is_liquid" (get_dictionary (ingredientPyFields r))
          = some (DVal.dnum (if b then 1 else 0))) := by
  constructor
  · intro fields k d hmem
    rw [dictifyFields_eq_map]
    refine List.mem_map.mpr ⟨(k, .vbool b), hmem, ?_⟩
    simp [dictify, tryFloat]
  · intro r h
    simp [get_dictionary, ingredientPyFields, dictifyFields, dictify, tryFloat,
      pyOfOptBool, h, List.lookup]

/-- Witness for C10: a concrete liquid ingredient serializes `is_liquid`
as the number 1. -/
theorem claim_C10_witness :
    List.lookup "is_liquid"
      (get_dictionary (ingredientPyFields
        { id := 3, name := some "Milk", approx_per_piece := some 0,
          energy := some 64, fats := some 4, carbs := some 5,
          proteins := some 3, fibres := some 0, salt := some 0,
          is_liquid := some true, density := some 1030 }))
      = some (DVal.dnum 1) :=
  (claim_C10 true).2
    { id := 3, name := some "Milk", approx_per_piece := some 0,
      energy := some 64, fats := some 4, carbs := some 5,
      proteins := some 3, fibres := some 0, salt := some 0,
      is_liquid := some true, density := some 1030 } rfl

/-! ## Database state and controller plumbing (controllers.py) -/

/-- The committed persisted state: one list per table plus per-table
autoincrement counters for primary keys assigned at flush. -/
structure DB where
  units : List UnitRow
  tags : List TagRow
  ingredients : List IngredientRow
  items : List ItemRow
  categories : List CategoryRow
  recipes : List RecipeRow
  nextUnitId : Nat
  nextTagId : Nat
  nextIngredientId : Nat
  nextItemId : Nat
  nextCategoryId : Nat
  nextRecipeId : Nat
deriving DecidableEq, Repr

/-- Exceptions escaping a controller call: `fastapi.HTTPException(status,
detail)`, `ValueError(msg)`, or Python's `AttributeError` (carrying the name of
the attribute whose access/assignment failed). -/
inductive Err where
  | http (status : Nat) (detail : String) : Err
  | valueError (msg : String) : Err
  | attributeError (attr : String) : Err
deriving DecidableEq, Repr

deriving instance DecidableEq for Except

/-- `session.get(Unit, j)`: first row with the primary key. -/
def findUnit (db : DB) (j : Nat) : Option UnitRow :=
  db.units.find? (fun u => u.id == j)

/-- `session.get(Tag, j)`. -/
def findTag (db : DB) (j : Nat) : Option TagRow :=
  db.tags.find? (fun t => t.id == j)

/-- `session.get(Ingredient, j)`. -/
def findIngredient (db : DB) (j : Nat) : Option IngredientRow :=
  db.ingredients.find? (fun i => i.id == j)

/-- `session.get(Category, j)`. -/
def findCategory (db : DB) (j : Nat) : Option CategoryRow :=
  db.categories.find? (fun c => c.id == j)

/-- `session.get(Recipe, j)`. -/
def findRecipe (db : DB) (j : Nat) : Option RecipeRow :=
  db.recipes.find? (fun r => r.id == j)

/-- Commit of an UPDATE on a fetched row: the first row matching the lookup
predicate (the object the session mutated) is replaced. -/
def replaceFirst : List α → (α → Bool) → α → List α
  | [], _, _ => []
  | a :: rest, p, n => if p a then n :: rest else a :: replaceFirst rest p n

/-- Python `f"{x}"` for an optional integer: `None` renders as `"None"`. -/
def optIdStr : Option Nat → String
  | none => "None"
  | some n => toString n

/-- The value interpolated as `{self.read_schema.__class__}` in the 404
messages of controllers.py: `read_schema` is the pydantic schema class, so its
`__class__` is pydantic's model metaclass — the same rendering for every
resource.  The exact text varies with the pydantic version; the v1 rendering is
fixed here.  What the claims turn on is only that it is one constant shared by
all controllers and that it is not the resource name. -/
def metaclassRepr : String := "<class 'pydantic.main.ModelMetaclass'>"

/-- controllers.py 404 detail `f"{self.read_schema.__class__} id={j} not found"`. -/
def not_found_detail (idText : String) : String :=
  metaclassRepr ++ " id=" ++ idText ++ " not found"

/-- Overwrite-if-present: one `setattr` of the default merge routine, which
iterates `data.dict(exclude_none=True)` — absent/null payload fields never
reach `setattr`. -/
def setIfPresent (old upd : Option α) : Option α :=
  match upd with
  | some v => some v
  | none => old

/-! ## Units controller -/

/-- Modelled from the spec: the pydantic `Unit` transfer shape (chef.schemas
is not under src/).  §3 gives Unit = {name, grams} and the controllers address
by an optional `id`; every field is nullable so the partial-update semantics of
§4.2 are expressible. -/
structure UnitPayload where
  id : Option Nat
  name : Option String
  grams : Option Int
deriving DecidableEq, Repr

/-- The value returned by the units controller: `read_schema(**row.dictionary)`
where `Unit.__items__ = ["name", "grams"]` — the dictionary carries no id, so
the schema's id field is null.  (`_dictify` renders grams as a float and name
as a string; pydantic coerces them back, the net effect on these fields being
the identity, which is inlined here.) -/
structure UnitOut where
  id : Option Nat
  name : Option String
  grams : Option Int
deriving DecidableEq, Repr

/-- Serialization of a unit row through `Unit.__items__` and the read schema. -/
def unitOut (r : UnitRow) : UnitOut :=
  { id := none, name := r.name, grams := r.grams }

/-- `Controller._fill_model` for a unit: `setattr` per present payload field
(`data.dict(exclude_none=True)`). -/
def unit_fill_model (m : UnitRow) (d : UnitPayload) : UnitRow :=
  { m with
    id := d.id.getD m.id,
    name := setIfPresent m.name d.name,
    grams := setIfPresent m.grams d.grams }

/-- `UnitsController.create_or_update`'s field loop: `data.dict(exclude={"id"})`
has no `exclude_none`, so every field except id is overwritten, nulls
included. -/
def unit_upsert_fill (m : UnitRow) (d : UnitPayload) : UnitRow :=
  { m with name := d.name, grams := d.grams }

/-- `Controller.get_single` on the units controller. -/
def units_get_single (db : DB) (item_id : Nat) : DB × Except Err UnitOut :=
  match findUnit db item_id with
  | none => (db, .error (.http 404 (not_found_detail (toString item_id))))
  | some r => (db, .ok (unitOut r))

/-- `Controller.delete_single` on the units controller: 404 on a missing id,
else remove the fetched row and commit. -/
def units_delete_single (db : DB) (item_id : Nat) : DB × Except Err Unit :=
  match findUnit db item_id with
  | none => (db, .error (.http 404 (not_found_detail (toString item_id))))
  | some _ =>
      ({ db with units := db.units.eraseP (fun u => u.id == item_id) }, .ok ())

/-- `Controller.update` on the units controller: fetch by `item_id` (404 whose
detail interpolates `data.id`, as written at controllers.py line 82), run the
default merge routine, commit, then `get_single(item.id)`. -/
def units_update (db : DB) (item_id : Nat) (d : UnitPayload) : DB × Except Err UnitOut :=
  match findUnit db item_id with
  | none => (db, .error (.http 404 (not_found_detail (optIdStr d.id))))
  | some r =>
      let r' := unit_fill_model r d
      let db' := { db with units := replaceFirst db.units (fun u => u.id == item_id) r' }
      match findUnit db' r'.id with
      | none => (db', .error (.http 404 (not_found_detail (toString r'.id))))
      | some r2 => (db', .ok (unitOut r2))

/-- `UnitsController.create_or_update`: resolve by id when the payload carries
one (a stale id resolves to `None` and the field loop then does
`setattr(None, ...)`, raising `AttributeError`); otherwise reuse the first row
with the payload's name or instantiate a new unit; overwrite every non-id
field; commit; re-fetch by name and serialize. -/
def units_create_or_update (db : DB) (d : UnitPayload) : DB × Except Err UnitOut :=
  match d.id with
  | some j =>
      match findUnit db j with
      | none => (db, .error (.attributeError "name"))
      | some r =>
          let r' := unit_upsert_fill r d
          let db' := { db with units := replaceFirst db.units (fun u => u.id == j) r' }
          match (db'.units.filter (fun u => u.name == r'.name)).head? with
          | none => (db', .error (.attributeError "dictionary"))
          | some r2 => (db', .ok (unitOut r2))
  | none =>
      match (db.units.filter (fun u => u.name == d.name)).head? with
      | some r =>
          let r' := unit_upsert_fill r d
          let db' := { db with units := replaceFirst db.units (fun u => u.name == d.name) r' }
          match (db'.units.filter (fun u => u.name == r'.name)).head? with
          | none => (db', .error (.attributeError "dictionary"))
          | some r2 => (db', .ok (unitOut r2))
      | none =>
          let r : UnitRow := { id := db.nextUnitId, name := d.name, grams := d.grams }
          let db' := { db with units := db.units ++ [r], nextUnitId := db.nextUnitId + 1 }
          match (db'.units.filter (fun u => u.name == r.name)).head? with
          | none => (db', .error (.attributeError "dictionary"))
          | some r2 => (db', .ok (unitOut r2))

theorem replaceFirst_append_of_none {l1 l2 : List α} {p : α → Bool} {n : α}
    (h : ∀ x ∈ l1, ¬ p x = true) :
    replaceFirst (l1 ++ l2) p n = l1 ++ replaceFirst l2 p n := by
  induction l1 with
  | nil => rfl
  | cons a t ih =>
    have ha : ¬ p a = true := h a (by simp)
    have ht : ∀ x ∈ t, ¬ p x = true := fun x hx => h x (by simp [hx])
    simp [replaceFirst, ha, ih ht]

theorem mem_replaceFirst {l : List α} {p : α → Bool} {n : α}
    (h : ∃ x ∈ l, p x = true) : n ∈ replaceFirst l p n := by
  induction l with
  | nil => simp at h
  | cons a t ih =>
    by_cases hpa : p a = true
    · simp [replaceFirst, hpa]
    · rcases h with ⟨x, hx, hpx⟩
      rcases List.mem_cons.mp hx with h1 | h2
      · exact absurd (h1 ▸ hpx) hpa
      · have := ih ⟨x, h2, hpx⟩
        simp [replaceFirst, hpa, this]

/-- **C2.** Unit natural-key upsert idempotence: two create-or-update calls
with the same id-less payload, starting from a state with no unit of that
name, leave exactly one persisted row with that name; the row created by the
first call is reused verbatim by the second (id preserved) and both calls
return the same serialized value. -/
theorem claim_C2 (db : DB) (d : UnitPayload) (hid : d.id = none)
    (hfresh : db.units.filter (fun u => u.name == d.name) = []) :
    ∃ r : UnitRow, ∃ u : UnitOut,
      r.id = db.nextUnitId ∧
      units_create_or_update db d
        = ({ db with units := db.units ++ [r], nextUnitId := db.nextUnitId + 1 }, .ok u) ∧
      units_create_or_update
          { db with units := db.units ++ [r], nextUnitId := db.nextUnitId + 1 } d
        = ({ db with units := db.units ++ [r], nextUnitId := db.nextUnitId + 1 }, .ok u) ∧
      (db.units ++ [r]).filter (fun x => x.name == d.name) = [r] := by
  have hnone : ∀ x ∈ db.units, ¬ (x.name == d.name) = true :=
    List.filter_eq_nil_iff.mp hfresh
  refine ⟨({ id := db.nextUnitId, name := d.name, grams := d.grams } : UnitRow),
          ({ id := none, name := d.name, grams := d.grams } : UnitOut), rfl, ?_, ?_, ?_⟩
  · simp only [units_create_or_update, hid, hfresh, List.head?]
    simp [List.filter_append, hfresh, unitOut]
  · have hfilter : (db.units ++ [({ id := db.nextUnitId, name := d.name, grams := d.grams } : UnitRow)]).filter
        (fun x => x.name == d.name)
        = [({ id := db.nextUnitId, name := d.name, grams := d.grams } : UnitRow)] := by
      simp [List.filter_append, hfresh]
    simp only [units_create_or_update, hid, hfilter, List.head?]
    have hrepl : replaceFirst
        (db.units ++ [({ id := db.nextUnitId, name := d.name, grams := d.grams } : UnitRow)])
        (fun u => u.name == d.name)
        ({ id := db.nextUnitId, name := d.name, grams := d.grams } : UnitRow)
        = db.units ++ [({ id := db.nextUnitId, name := d.name, grams := d.grams } : UnitRow)] := by
      rw [replaceFirst_append_of_none hnone]
      simp [replaceFirst]
    simp only [unit_upsert_fill]
    simp [hrepl, hfilter, unitOut]
  · simp [List.filter_append, hfresh]

/-- Witness for C2: creating a unit named "g" twice on an empty database
yields one row with id 1 and identical return values. -/
theorem claim_C2_witness :
    ∃ r : UnitRow, ∃ u : UnitOut,
      r.id = 1 ∧
      units_create_or_update
          { units := [], tags := [], ingredients := [], items := [], categories := [],
            recipes := [], nextUnitId := 1, nextTagId := 1, nextIngredientId := 1,
            nextItemId := 1, nextCategoryId := 1, nextRecipeId := 1 }
          { id := none, name := some "g", grams := some 0 }
        = ({ units := [r], tags := [], ingredients := [], items := [], categories := [],
             recipes := [], nextUnitId := 2, nextTagId := 1, nextIngredientId := 1,
             nextItemId := 1, nextCategoryId := 1, nextRecipeId := 1 }, .ok u) ∧
      units_create_or_update
          { units := [r], tags := [], ingredients := [], items := [], categories := [],
            recipes := [], nextUnitId := 2, nextTagId := 1, nextIngredientId := 1,
            nextItemId := 1, nextCategoryId := 1, nextRecipeId := 1 }
          { id := none, name := some "g", grams := some 0 }
        = ({ units := [r], tags := [], ingredients := [], items := [], categories := [],
             recipes := [], nextUnitId := 2, nextTagId := 1, nextIngredientId := 1,
             nextItemId := 1, nextCategoryId := 1, nextRecipeId := 1 }, .ok u) ∧
      [r].filter (fun x => x.name == some "g") = [r] := by
  have h := claim_C2
    { units := [], tags := [], ingredients := [], items := [], categories := [],
      recipes := [], nextUnitId := 1, nextTagId := 1, nextIngredientId := 1,
      nextItemId := 1, nextCategoryId := 1, nextRecipeId := 1 }
    { id := none, name := some "g", grams := some 0 } rfl rfl
  simpa using h

/-- **C7.** The default merge routine is a partial update: an `update` call on
an existing unit overwrites exactly the present (non-null) payload fields and
leaves absent/null fields unchanged, the other rows being untouched. -/
theorem claim_C7 (db : DB) (j : Nat) (d : UnitPayload) (r : UnitRow)
    (hfind : findUnit db j = some r) :
    ∃ ret, units_update db j d
        = ({ db with units := replaceFirst db.units (fun u => u.id == j) (unit_fill_model r d) },
           .ok ret)
      ∧ (unit_fill_model r d).name = setIfPresent r.name d.name
      ∧ (unit_fill_model r d).grams = setIfPresent r.grams d.grams
      ∧ (unit_fill_model r d).id = d.id.getD r.id
      ∧ (d.name = none → (unit_fill_model r d).name = r.name)
      ∧ (d.grams = none → (unit_fill_model r d).grams = r.grams) := by
  have hfind' : db.units.find? (fun u => u.id == j) = some r := hfind
  have hmem : unit_fill_model r d
      ∈ replaceFirst db.units (fun u => u.id == j) (unit_fill_model r d) := by
    have hp := List.find?_some hfind'
    exact mem_replaceFirst ⟨r, List.mem_of_find?_eq_some hfind', hp⟩
  have hsome : ((replaceFirst db.units (fun u => u.id == j) (unit_fill_model r d)).find?
      (fun u => u.id == (unit_fill_model r d).id)).isSome := by
    rw [List.find?_isSome]
    exact ⟨unit_fill_model r d, hmem, by simp⟩
  rcases Option.isSome_iff_exists.mp hsome with ⟨r2, hr2⟩
  refine ⟨unitOut r2, ?_, rfl, rfl, rfl, ?_, ?_⟩
  · simp only [units_update, hfind]
    simp only [findUnit] at hr2 ⊢
    simp [hr2]
  · intro h; simp [unit_fill_model, h, setIfPresent]
  · intro h; simp [unit_fill_model, h, setIfPresent]

/-- Witness for C7: updating unit 1 (name "kg", grams 2) with only
`{grams: 5}` leaves the name unchanged and sets grams to 5. -/
theorem claim_C7_witness :
    ∃ ret, units_update
        { units := [{ id := 1, name := some "kg", grams := some 2 }], tags := [],
          ingredients := [], items := [], categories := [], recipes := [],
          nextUnitId := 2, nextTagId := 1, nextIngredientId := 1, nextItemId := 1,
          nextCategoryId := 1, nextRecipeId := 1 } 1
        { id := none, name := none, grams := some 5 }
      = ({ units := [{ id := 1, name := some "kg", grams := some 5 }], tags := [],
           ingredients := [], items := [], categories := [], recipes := [],
           nextUnitId := 2, nextTagId := 1, nextIngredientId := 1, nextItemId := 1,
           nextCategoryId := 1, nextRecipeId := 1 }, .ok ret) := by
  have h := claim_C7
    { units := [{ id := 1, name := some "kg", grams := some 2 }], tags := [],
      ingredients := [], items := [], categories := [], recipes := [],
      nextUnitId := 2, nextTagId := 1, nextIngredientId := 1, nextItemId := 1,
      nextCategoryId := 1, nextRecipeId := 1 } 1
    { id := none, name := none, grams := some 5 }
    { id := 1, name := some "kg", grams := some 2 } rfl
  rcases h with ⟨ret, h1, _⟩
  exact ⟨ret, by simpa [replaceFirst, unit_fill_model, setIfPresent] using h1⟩

/-! ## Ingredients controller

Payload ids are positive (autoincrement keys start at 1), so Python's
truthiness test `if getattr(data, "id", None):` coincides with presence of the
optional id and is modelled as `Option.isSome`. -/

/-- Modelled from the spec: the pydantic `UpdateIngredient` transfer shape
(chef.schemas is not under src/): the Ingredient fields of §3 plus an optional
id, all nullable so the partial-update semantics of §4.2 are expressible. -/
structure IngredientPayload where
  id : Option Nat
  name : Option String
  energy : Option Int
  fats : Option Int
  carbs : Option Int
  proteins : Option Int
  fibres : Option Int
  salt : Option Int
  is_liquid : Option Bool
  density : Option Int
deriving DecidableEq, Repr

/-- `Controller._fill_model` for an ingredient: `setattr` per present payload
field (`data.dict(exclude_none=True)`); `approx_per_piece` is not in the
transfer shape and is never touched. -/
def ingredient_fill_model (m : IngredientRow) (d : IngredientPayload) : IngredientRow :=
  { m with
    id := d.id.getD m.id,
    name := setIfPresent m.name d.name,
    energy := setIfPresent m.energy d.energy,
    fats := setIfPresent m.fats d.fats,
    carbs := setIfPresent m.carbs d.carbs,
    proteins := setIfPresent m.proteins d.proteins,
    fibres := setIfPresent m.fibres d.fibres,
    salt := setIfPresent m.salt d.salt,
    is_liquid := setIfPresent m.is_liquid d.is_liquid,
    density := setIfPresent m.density d.density }

/-- A fresh `Ingredient()` ORM instance: every attribute unset. -/
def emptyIngredientRow (newId : Nat) : IngredientRow :=
  { id := newId, name := none, approx_per_piece := none, energy := none, fats := none,
    carbs := none, proteins := none, fibres := none, salt := none, is_liquid := none,
    density := none }

/-- Column defaults of models.py fire at INSERT for attributes never set
(`exclude_none` filling leaves absent fields unset).  `name` has no default;
its NOT NULL constraint is not modelled (no claim inserts a nameless row). -/
def ingredient_insert_defaults (m : IngredientRow) : IngredientRow :=
  { m with
    approx_per_piece := some (m.approx_per_piece.getD 0),
    energy := some (m.energy.getD 0),
    fats := some (m.fats.getD 0),
    carbs := some (m.carbs.getD 0),
    proteins := some (m.proteins.getD 0),
    fibres := some (m.fibres.getD 0),
    salt := some (m.salt.getD 0),
    is_liquid := some (m.is_liquid.getD false),
    density := some (m.density.getD 1000) }

/-- `Controller.create_or_update` on the ingredients controller.  With a stale
id, `session.get` yields `None` and the default merge routine's first
`setattr(None, ...)` raises `AttributeError` (the payload's id itself is a
present field).  Returns the id carried by the serialized read schema
(`Ingredient.__items__` includes `"id"`; `_dictify` renders it as a float and
pydantic coerces it back, a net identity inlined here). -/
def ingredients_create_or_update (db : DB) (d : IngredientPayload) : DB × Except Err Nat :=
  match d.id with
  | some j =>
      match findIngredient db j with
      | none => (db, .error (.attributeError "id"))
      | some r =>
          let r' := ingredient_fill_model r d
          let db' := { db with ingredients := replaceFirst db.ingredients (fun i => i.id == j) r' }
          match findIngredient db' r'.id with
          | none => (db', .error (.attributeError "dictionary"))
          | some r2 => (db', .ok r2.id)
  | none =>
      let r := ingredient_insert_defaults
        (ingredient_fill_model (emptyIngredientRow db.nextIngredientId) d)
      let db' := { db with
        ingredients := db.ingredients ++ [r],
        nextIngredientId := db.nextIngredientId + 1 }
      match findIngredient db' r.id with
      | none => (db', .error (.attributeError "dictionary"))
      | some r2 => (db', .ok r2.id)

/-- Python `', '.join`. -/
def joinComma : List String → String
  | [] => ""
  | [a] => a
  | a :: rest => a ++ ", " ++ joinComma rest

/-- The titles collected by `IngredientsController.delete_single`: for every
ingredient-item referencing the ingredient, the title of every recipe whose
collection contains that item.  (Committed recipes have NOT NULL titles; the
`getD` branch is dead for well-formed states.) -/
def blockingTitles (db : DB) (j : Nat) : List String :=
  (db.items.filter (fun it => it.ingredient_id == some j)).flatMap
    (fun it => (db.recipes.filter (fun r => r.itemIds.contains it.id)).map
      (fun r => r.title.getD "None"))

/-- `IngredientsController.delete_single`: on a missing id the unguarded
`ingredient.ingredients_items` attribute access on `None` raises
`AttributeError`; with any blocking recipe a 400 conflict naming the titles is
raised before any deletion; otherwise the default delete removes the row and
commits. -/
def ingredients_delete_single (db : DB) (item_id : Nat) : DB × Except Err Unit :=
  match findIngredient db item_id with
  | none => (db, .error (.attributeError "ingredients_items"))
  | some _ =>
      let titles := blockingTitles db item_id
      if titles.isEmpty then
        ({ db with ingredients := db.ingredients.eraseP (fun i => i.id == item_id) }, .ok ())
      else
        (db, .error (.http 400 ("Ingredient still attached to some recipes: " ++ joinComma titles)))

/-! ## Categories controller -/

/-- Modelled from the spec: the pydantic `Tag` transfer shape (chef.schemas is
not under src/): an optional id plus the name of §3. -/
structure TagPayload where
  id : Option Nat
  name : Option String
deriving DecidableEq, Repr

/-- Modelled from the spec: the pydantic `CreateOrUpdateCategory` shape
(chef.schemas is not under src/): §3 Category = {name, tags}. -/
structure CategoryPayload where
  id : Option Nat
  name : Option String
  tags : List TagPayload
deriving DecidableEq, Repr

/-- The tag-resolution loop of `CategoriesController._fill_model`: each payload
tag id is resolved by `session.get`; the first unresolved one raises a 400
with detail `f"Tag id={tag.id} not found"`.  (A null payload id is modelled as
unresolved; no claim exercises `session.get` with a null key.) -/
def categories_resolve_tags (db : DB) : List TagPayload → Except Err (List Nat)
  | [] => .ok []
  | t :: rest =>
      match t.id with
      | some j =>
          match findTag db j with
          | none => .error (.http 400 ("Tag id=" ++ optIdStr t.id ++ " not found"))
          | some row => (categories_resolve_tags db rest).map (fun l => row.id :: l)
      | none => .error (.http 400 ("Tag id=" ++ optIdStr t.id ++ " not found"))

/-- `CategoriesController._fill_model`: resolve every payload tag first (no
mutation yet), then overwrite the present scalar fields and replace the tag
links. -/
def category_fill_model (db : DB) (m : CategoryRow) (d : CategoryPayload) :
    Except Err CategoryRow :=
  (categories_resolve_tags db d.tags).map (fun tagIds =>
    { m with
      id := d.id.getD m.id,
      name := setIfPresent m.name d.name,
      tagIds := tagIds })

/-- `Controller.update` on the categories controller (the 404 detail
interpolates `data.id`, controllers.py line 82). -/
def categories_update (db : DB) (item_id : Nat) (d : CategoryPayload) : DB × Except Err Nat :=
  match findCategory db item_id with
  | none => (db, .error (.http 404 (not_found_detail (optIdStr d.id))))
  | some r =>
      match category_fill_model db r d with
      | .error e => (db, .error e)
      | .ok r' =>
          let db' := { db with categories := replaceFirst db.categories (fun c => c.id == item_id) r' }
          match findCategory db' r'.id with
          | none => (db', .error (.http 404 (not_found_detail (toString r'.id))))
          | some r2 => (db', .ok r2.id)

/-! ## Recipes controller (aggregate synchronizer) -/

/-- Modelled from the spec: the pydantic `IngredientItem` transfer shape
(chef.schemas is not under src/): §3/§4.4 give a line item carrying amount and
note together with nested unit and ingredient shapes. -/
structure ItemPayload where
  amount : Option Int
  note : Option String
  unit : UnitPayload
  ingredient : IngredientPayload
deriving DecidableEq, Repr

/-- Modelled from the spec: the pydantic `CreateOrUpdateRecipe` transfer shape
(chef.schemas is not under src/): §3 Recipe scalars plus the nested
ingredient-item and tag lists. -/
structure RecipePayload where
  id : Option Nat
  title : Option String
  subtitle : Option String
  source_name : Option String
  source : Option String
  draft : Option Bool
  portions : Option Int
  body : Option String
  ingredients : List ItemPayload
  tags : List TagPayload
deriving DecidableEq, Repr

/-- A transient `IngredientItem(**item.dict(exclude={'ingredient','unit'}))`
ORM object, not yet flushed: amount and note set from the payload (explicitly,
nulls included, so column defaults are suppressed), the foreign keys assigned
from the sub-controller results.  `unit_id` receives the id field of the unit
upsert's return value, which is always null because `Unit.__items__` omits the
id (see `unitOut`). -/
structure PendingItem where
  amount : Option Int
  note : Option String
  unit_id : Option Nat
  ingredient_id : Option Nat
deriving DecidableEq, Repr

/-- One entry of `updated_tags` in `RecipesController._get_ingredients_and_tags`:
either the result of `session.get(Tag, tag.id)` (null when unresolved) or a
transient `Tag(**tag.dict())` awaiting an id at flush. -/
inductive TagRef where
  | resolved (t : Option Nat) : TagRef
  | fresh (name : Option String) : TagRef
deriving DecidableEq, Repr

/-- The ingredient-item loop of `_get_ingredients_and_tags`: for each payload
item, run the unit natural-key upsert and the ingredient create-or-update
(both commit eagerly), then build the transient line item. -/
def recipes_build_items (db : DB) : List ItemPayload → DB × Except Err (List PendingItem)
  | [] => (db, .ok [])
  | ip :: rest =>
      let step1 := units_create_or_update db ip.unit
      match step1.2 with
      | .error e => (step1.1, .error e)
      | .ok u =>
          let step2 := ingredients_create_or_update step1.1 ip.ingredient
          match step2.2 with
          | .error e => (step2.1, .error e)
          | .ok ingId =>
              let item : PendingItem :=
                { amount := ip.amount, note := ip.note,
                  unit_id := u.id, ingredient_id := some ingId }
              let step3 := recipes_build_items step2.1 rest
              match step3.2 with
              | .error e => (step3.1, .error e)
              | .ok items => (step3.1, .ok (item :: items))

/-- The tag loop of `_get_ingredients_and_tags`: an id-bearing payload tag is
resolved by `session.get` (silently null when missing); an id-less one becomes
a transient new Tag. -/
def recipes_build_tags (db : DB) : List TagPayload → List TagRef
  | [] => []
  | t :: rest =>
      (match t.id with
       | some j => TagRef.resolved ((findTag db j).map (fun row => row.id))
       | none => TagRef.fresh t.name) :: recipes_build_tags db rest

/-- The scalar part of `RecipesController._fill_model`:
`data.dict(exclude_none=True, exclude={"tags", "ingredients"})`. -/
def recipe_fill_scalars (m : RecipeRow) (d : RecipePayload) : RecipeRow :=
  { m with
    id := d.id.getD m.id,
    title := setIfPresent m.title d.title,
    subtitle := setIfPresent m.subtitle d.subtitle,
    source_name := setIfPresent m.source_name d.source_name,
    source := setIfPresent m.source d.source,
    draft := setIfPresent m.draft d.draft,
    portions := setIfPresent m.portions d.portions,
    body := setIfPresent m.body d.body }

/-- Flush of the transient line items: ids assigned from the item table's
autoincrement, in list order; `exclude` takes its column default. -/
def materializeItems (startId : Nat) : List PendingItem → List ItemRow
  | [] => []
  | p :: rest =>
      { id := startId, ingredient_id := p.ingredient_id, amount := p.amount,
        unit_id := p.unit_id, note := p.note, exclude := some false }
        :: materializeItems (startId + 1) rest

/-- Flush of `updated_tags`: transient tags get autoincremented ids and rows,
resolved entries keep their (possibly null) reference.  Returns the new tag
rows, the recipe's tag-link list in payload order, and the next tag id. -/
def materializeTags (startId : Nat) : List TagRef → List TagRow × List (Option Nat) × Nat
  | [] => ([], [], startId)
  | TagRef.resolved t :: rest =>
      let step := materializeTags startId rest
      (step.1, t :: step.2.1, step.2.2)
  | TagRef.fresh nm :: rest =>
      let step := materializeTags (startId + 1) rest
      ({ id := startId, name := nm } :: step.1, some startId :: step.2.1, step.2.2)

/-- `RecipesController._fill_model`: 404 on a null model (the guard at
controllers.py line 183), scalar overwrite, then the nested builds.  The
returned row still carries the OLD collections; the commit step attaches the
new ones, mirroring the assignment `model.ingredients = updated_ingredients;
model.tags = updated_tags` whose rows get ids only at flush. -/
def recipes_fill_model (db : DB) (model : Option RecipeRow) (d : RecipePayload) :
    DB × Except Err (RecipeRow × List PendingItem × List TagRef) :=
  match model with
  | none => (db, .error (.http 404 (not_found_detail (optIdStr d.id))))
  | some m =>
      let m' := recipe_fill_scalars m d
      let step := recipes_build_items db d.ingredients
      match step.2 with
      | .error e => (step.1, .error e)
      | .ok pend => (step.1, .ok (m', pend, recipes_build_tags step.1 d.tags))

/-- The final `session.commit()` of a recipe update: flush the transient items
and tags, replace the fetched recipe row with the filled one, and replace both
association lists with the freshly built collections.  De-associated old item
and tag rows are NOT deleted: the `ingredients` relationship has
`cascade="all"` but not `delete-orphan` (and `tags` has no delete cascade at
all), so removal from the collection only deletes association-table rows. -/
def recipes_commit (db : DB) (lookupId : Nat) (r : RecipeRow) (pend : List PendingItem)
    (refs : List TagRef) : DB :=
  let itemRows := materializeItems db.nextItemId pend
  let step := materializeTags db.nextTagId refs
  { db with
    items := db.items ++ itemRows,
    tags := db.tags ++ step.1,
    recipes := replaceFirst db.recipes (fun x => x.id == lookupId)
      { r with itemIds := itemRows.map (fun it => it.id), tagIds := step.2.1 },
    nextItemId := db.nextItemId + pend.length,
    nextTagId := step.2.2 }

/-- `Controller.update` on the recipes controller (404 detail interpolates
`data.id`; the overridden merge routine synchronizes the aggregate; the final
read-back is a pure serialization, represented by the id it addresses). -/
def recipes_update (db : DB) (item_id : Nat) (d : RecipePayload) : DB × Except Err Nat :=
  match findRecipe db item_id with
  | none => (db, .error (.http 404 (not_found_detail (optIdStr d.id))))
  | some r =>
      let step := recipes_fill_model db (some r) d
      match step.2 with
      | .error e => (step.1, .error e)
      | .ok filled =>
          let db2 := recipes_commit step.1 item_id filled.1 filled.2.1 filled.2.2
          match findRecipe db2 filled.1.id with
          | none => (db2, .error (.http 404 (not_found_detail (toString filled.1.id))))
          | some r2 => (db2, .ok r2.id)

/-- A fresh `Recipe()` ORM instance: every attribute unset, empty collections. -/
def emptyRecipeRow : RecipeRow :=
  { id := 0, title := none, subtitle := none, source_name := none, source := none,
    draft := none, portions := none, body := none, itemIds := [], tagIds := [] }

/-- Recipe column defaults at INSERT: draft False, portions 4. -/
def recipe_insert_defaults (m : RecipeRow) : RecipeRow :=
  { m with
    draft := some (m.draft.getD false),
    portions := some (m.portions.getD 4) }

/-- `Controller.create` on the recipes controller: a fresh ORM instance is
filled (so the aggregate build runs), added and committed; the INSERT takes
the payload id if the merge set one and the autoincrement id otherwise. -/
def recipes_create (db : DB) (d : RecipePayload) : DB × Except Err Nat :=
  let step := recipes_fill_model db (some emptyRecipeRow) d
  match step.2 with
  | .error e => (step.1, .error e)
  | .ok filled =>
      let db1 := step.1
      let itemRows := materializeItems db1.nextItemId filled.2.1
      let tstep := materializeTags db1.nextTagId filled.2.2
      let newId := if d.id.isSome then filled.1.id else db1.nextRecipeId
      let rrow := recipe_insert_defaults
        { filled.1 with
          id := newId,
          itemIds := itemRows.map (fun it => it.id),
          tagIds := tstep.2.1 }
      let db2 := { db1 with
        items := db1.items ++ itemRows,
        tags := db1.tags ++ tstep.1,
        recipes := db1.recipes ++ [rrow],
        nextItemId := db1.nextItemId + filled.2.1.length,
        nextTagId := tstep.2.2,
        nextRecipeId := if d.id.isSome then db1.nextRecipeId else db1.nextRecipeId + 1 }
      match findRecipe db2 rrow.id with
      | none => (db2, .error (.http 404 (not_found_detail (toString rrow.id))))
      | some r2 => (db2, .ok r2.id)

/-- `RecipesController.create_or_update`: unconditionally
`raise ValueError("Not allowed on this controller!")`, before any session
access. -/
def recipes_create_or_update (db : DB) (_d : RecipePayload) : DB × Except Err Nat :=
  (db, .error (.valueError "Not allowed on this controller!"))

/-! ## Frame lemmas: the sub-controller upserts touch only their own table -/

theorem units_cou_frame (db : DB) (d : UnitPayload) :
    (units_create_or_update db d).1.tags = db.tags ∧
    (units_create_or_update db d).1.ingredients = db.ingredients ∧
    (units_create_or_update db d).1.items = db.items ∧
    (units_create_or_update db d).1.categories = db.categories ∧
    (units_create_or_update db d).1.recipes = db.recipes ∧
    (units_create_or_update db d).1.nextTagId = db.nextTagId ∧
    (units_create_or_update db d).1.nextIngredientId = db.nextIngredientId ∧
    (units_create_or_update db d).1.nextItemId = db.nextItemId ∧
    (units_create_or_update db d).1.nextCategoryId = db.nextCategoryId ∧
    (units_create_or_update db d).1.nextRecipeId = db.nextRecipeId := by
  cases hid : d.id with
  | none =>
    cases hh : (db.units.filter (fun u => u.name == d.name)).head? with
    | none =>
      simp only [units_create_or_update, hid, hh]
      cases (({ db with
          units := db.units ++ [{ id := db.nextUnitId, name := d.name, grams := d.grams }],
          nextUnitId := db.nextUnitId + 1 } : DB).units.filter
            (fun u => u.name == d.name)).head? <;> simp
    | some r =>
      simp only [units_create_or_update, hid, hh]
      cases (({ db with
          units := replaceFirst db.units (fun u => u.name == d.name) (unit_upsert_fill r d) } : DB).units.filter
            (fun u => u.name == (unit_upsert_fill r d).name)).head? <;> simp
  | some j =>
    cases hf : findUnit db j with
    | none => simp [units_create_or_update, hid, hf]
    | some r =>
      simp only [units_create_or_update, hid, hf]
      cases (({ db with
          units := replaceFirst db.units (fun u => u.id == j) (unit_upsert_fill r d) } : DB).units.filter
            (fun u => u.name == (unit_upsert_fill r d).name)).head? <;> simp

theorem ingredients_cou_frame (db : DB) (d : IngredientPayload) :
    (ingredients_create_or_update db d).1.units = db.units ∧
    (ingredients_create_or_update db d).1.tags = db.tags ∧
    (ingredients_create_or_update db d).1.items = db.items ∧
    (ingredients_create_or_update db d).1.categories = db.categories ∧
    (ingredients_create_or_update db d).1.recipes = db.recipes ∧
    (ingredients_create_or_update db d).1.nextUnitId = db.nextUnitId ∧
    (ingredients_create_or_update db d).1.nextTagId = db.nextTagId ∧
    (ingredients_create_or_update db d).1.nextItemId = db.nextItemId ∧
    (ingredients_create_or_update db d).1.nextCategoryId = db.nextCategoryId ∧
    (ingredients_create_or_update db d).1.nextRecipeId = db.nextRecipeId := by
  cases hid : d.id with
  | none =>
    simp only [ingredients_create_or_update, hid]
    cases findIngredient
        { db with
          ingredients := db.ingredients ++ [ingredient_insert_defaults
            (ingredient_fill_model (emptyIngredientRow db.nextIngredientId) d)],
          nextIngredientId := db.nextIngredientId + 1 }
        (ingredient_insert_defaults
          (ingredient_fill_model (emptyIngredientRow db.nextIngredientId) d)).id <;> simp
  | some j =>
    cases hf : findIngredient db j with
    | none => simp [ingredients_create_or_update, hid, hf]
    | some r =>
      simp only [ingredients_create_or_update, hid, hf]
      cases findIngredient
          { db with
            ingredients := replaceFirst db.ingredients (fun i => i.id == j)
              (ingredient_fill_model r d) }
          (ingredient_fill_model r d).id <;> simp

theorem build_items_frame (l : List ItemPayload) (db : DB) :
    (recipes_build_items db l).1.tags = db.tags ∧
    (recipes_build_items db l).1.items = db.items ∧
    (recipes_build_items db l).1.categories = db.categories ∧
    (recipes_build_items db l).1.recipes = db.recipes ∧
    (recipes_build_items db l).1.nextTagId = db.nextTagId ∧
    (recipes_build_items db l).1.nextItemId = db.nextItemId ∧
    (recipes_build_items db l).1.nextCategoryId = db.nextCategoryId ∧
    (recipes_build_items db l).1.nextRecipeId = db.nextRecipeId := by
  induction l generalizing db with
  | nil => simp [recipes_build_items]
  | cons ip rest ih =>
    have hu := units_cou_frame db ip.unit
    have hi := ingredients_cou_frame (units_create_or_update db ip.unit).1 ip.ingredient
    have hr := ih (ingredients_create_or_update (units_create_or_update db ip.unit).1 ip.ingredient).1
    simp only [recipes_build_items]
    cases (units_create_or_update db ip.unit).2 with
    | error e => simp_all
    | ok u =>
      cases (ingredients_create_or_update (units_create_or_update db ip.unit).1 ip.ingredient).2 with
      | error e => simp_all
      | ok ingId =>
        cases (recipes_build_items
            (ingredients_create_or_update (units_create_or_update db ip.unit).1 ip.ingredient).1
            rest).2 with
        | error e => simp_all
        | ok items => simp_all

/-- **C4.** The recipes controller's create-or-update raises unconditionally
(a `ValueError`, the OperationDisabled of the spec) and neither reads nor
mutates any persisted state: the result is the same for every database and
every payload, with the state component untouched. -/
theorem claim_C4 (db : DB) (d : RecipePayload) :
    recipes_create_or_update db d
      = (db, .error (.valueError "Not allowed on this controller!")) := rfl

/-- **C8 (amended).** When create-or-update receives a non-null id that does
not resolve — generic controller (ingredients) or unit natural-key upsert —
the call does not fail with NotFound, but neither does it silently create: the
field loop does `setattr` on the `None` resolution result, raising
`AttributeError`, and no entity is persisted (the state is unchanged). -/
theorem claim_C8 (db : DB) :
    (∀ d : UnitPayload, ∀ j, d.id = some j → findUnit db j = none →
      units_create_or_update db d = (db, .error (.attributeError "name")))
    ∧ (∀ d : IngredientPayload, ∀ j, d.id = some j → findIngredient db j = none →
      ingredients_create_or_update db d = (db, .error (.attributeError "id"))) := by
  constructor
  · intro d j hid hf
    simp [units_create_or_update, hid, hf]
  · intro d j hid hf
    simp [ingredients_create_or_update, hid, hf]

/-- Witness for C8: a stale id 7 on an empty database raises AttributeError in
both controllers. -/
theorem claim_C8_witness :
    units_create_or_update
        { units := [], tags := [], ingredients := [], items := [], categories := [],
          recipes := [], nextUnitId := 1, nextTagId := 1, nextIngredientId := 1,
          nextItemId := 1, nextCategoryId := 1, nextRecipeId := 1 }
        { id := some 7, name := some "g", grams := some 0 }
      = ({ units := [], tags := [], ingredients := [], items := [], categories := [],
           recipes := [], nextUnitId := 1, nextTagId := 1, nextIngredientId := 1,
           nextItemId := 1, nextCategoryId := 1, nextRecipeId := 1 }, .error (.attributeError "name"))
    ∧ ingredients_create_or_update
        { units := [], tags := [], ingredients := [], items := [], categories := [],
          recipes := [], nextUnitId := 1, nextTagId := 1, nextIngredientId := 1,
          nextItemId := 1, nextCategoryId := 1, nextRecipeId := 1 }
        { id := some 7, name := some "Salt", energy := none, fats := none, carbs := none,
          proteins := none, fibres := none, salt := none, is_liquid := none, density := none }
      = ({ units := [], tags := [], ingredients := [], items := [], categories := [],
           recipes := [], nextUnitId := 1, nextTagId := 1, nextIngredientId := 1,
           nextItemId := 1, nextCategoryId := 1, nextRecipeId := 1 }, .error (.attributeError "id")) := by
  constructor
  · exact (claim_C8 _).1 { id := some 7, name := some "g", grams := some 0 } 7 rfl rfl
  · exact (claim_C8 _).2
      { id := some 7, name := some "Salt", energy := none, fats := none, carbs := none,
        proteins := none, fibres := none, salt := none, is_liquid := none, density := none } 7 rfl rfl

/-- **C8 counterexample.** The claim as stated: with a stale id the call
"silently creates and persists a new entity populated from the input, and
returns its serialization".  At this concrete input both create-or-update
variants instead return an `AttributeError` and persist nothing — in
particular neither call returns a success value. -/
theorem claim_C8_counterexample :
    (units_create_or_update
        { units := [], tags := [], ingredients := [], items := [], categories := [],
          recipes := [], nextUnitId := 1, nextTagId := 1, nextIngredientId := 1,
          nextItemId := 1, nextCategoryId := 1, nextRecipeId := 1 }
        { id := some 7, name := some "g", grams := some 0 }).2
      = .error (.attributeError "name")
    ∧ (∀ u : UnitOut, (units_create_or_update
        { units := [], tags := [], ingredients := [], items := [], categories := [],
          recipes := [], nextUnitId := 1, nextTagId := 1, nextIngredientId := 1,
          nextItemId := 1, nextCategoryId := 1, nextRecipeId := 1 }
        { id := some 7, name := some "g", grams := some 0 }).2 ≠ .ok u)
    ∧ (units_create_or_update
        { units := [], tags := [], ingredients := [], items := [], categories := [],
          recipes := [], nextUnitId := 1, nextTagId := 1, nextIngredientId := 1,
          nextItemId := 1, nextCategoryId := 1, nextRecipeId := 1 }
        { id := some 7, name := some "g", grams := some 0 }).1.units = [] := by
  refine ⟨rfl, ?_, rfl⟩
  intro u h
  exact Except.noConfusion h

theorem append_ne_of_not_suffix {s t : String} (h : ¬ s.data <:+ t.data) :
    ∀ r : String, t ≠ r ++ s := by
  intro r heq
  apply h
  refine ⟨r.data, ?_⟩
  rw [heq]
  simp [String.data_append]

/-- **C6 (amended).** Operations addressing a missing id fail with a 404
HTTPException and leave the state unchanged, but the detail is
`f"{self.read_schema.__class__} id={j} not found"` — the interpolated value is
the pydantic metaclass rendering, the same constant for every resource, not
the resource kind's name — and for `update` the interpolated id is the
payload's id (`data.id`), not the id the caller addressed; moreover the
ingredients controller's `delete_single` dereferences the `None` lookup result
and raises `AttributeError` instead of NotFound. -/
theorem claim_C6 (db : DB) (j : Nat) :
    (findUnit db j = none →
      units_get_single db j = (db, .error (.http 404 (not_found_detail (toString j))))
      ∧ units_delete_single db j = (db, .error (.http 404 (not_found_detail (toString j))))
      ∧ ∀ d : UnitPayload, units_update db j d
          = (db, .error (.http 404 (not_found_detail (optIdStr d.id)))))
    ∧ (findCategory db j = none → ∀ d : CategoryPayload,
        categories_update db j d = (db, .error (.http 404 (not_found_detail (optIdStr d.id)))))
    ∧ (findRecipe db j = none → ∀ d : RecipePayload,
        recipes_update db j d = (db, .error (.http 404 (not_found_detail (optIdStr d.id)))))
    ∧ (findIngredient db j = none →
        ingredients_delete_single db j = (db, .error (.attributeError "ingredients_items"))) := by
  refine ⟨?_, ?_, ?_, ?_⟩
  · intro hf
    exact ⟨by simp [units_get_single, hf], by simp [units_delete_single, hf],
      fun d => by simp [units_update, hf]⟩
  · intro hf d
    simp [categories_update, hf]
  · intro hf d
    simp [recipes_update, hf]
  · intro hf
    simp [ingredients_delete_single, hf]

/-- Witness for C6 (amended): all four operation families on an empty
database at id 5. -/
theorem claim_C6_witness :
    units_get_single
        { units := [], tags := [], ingredients := [], items := [], categories := [],
          recipes := [], nextUnitId := 1, nextTagId := 1, nextIngredientId := 1,
          nextItemId := 1, nextCategoryId := 1, nextRecipeId := 1 } 5
      = ({ units := [], tags := [], ingredients := [], items := [], categories := [],
           recipes := [], nextUnitId := 1, nextTagId := 1, nextIngredientId := 1,
           nextItemId := 1, nextCategoryId := 1, nextRecipeId := 1 },
         .error (.http 404 (not_found_detail "5")))
    ∧ ingredients_delete_single
        { units := [], tags := [], ingredients := [], items := [], categories := [],
          recipes := [], nextUnitId := 1, nextTagId := 1, nextIngredientId := 1,
          nextItemId := 1, nextCategoryId := 1, nextRecipeId := 1 } 5
      = ({ units := [], tags := [], ingredients := [], items := [], categories := [],
           recipes := [], nextUnitId := 1, nextTagId := 1, nextIngredientId := 1,
           nextItemId := 1, nextCategoryId := 1, nextRecipeId := 1 },
         .error (.attributeError "ingredients_items")) := by
  have h := claim_C6
    { units := [], tags := [], ingredients := [], items := [], categories := [],
      recipes := [], nextUnitId := 1, nextTagId := 1, nextIngredientId := 1,
      nextItemId := 1, nextCategoryId := 1, nextRecipeId := 1 } 5
  exact ⟨(h.1 rfl).1, h.2.2.2 rfl⟩

/-- **C6 counterexample.** Updating unit id 5 (missing) with a payload whose
id is 7: the call fails, but its message interpolates the payload's id 7 and
the pydantic metaclass — it is not of the claimed form
`"{resource} id=5 not found"` for ANY resource string, because it does not
even end in `" id=5 not found"` (5 being the id the caller addressed). -/
theorem claim_C6_counterexample :
    units_update
        { units := [{ id := 1, name := some "g", grams := some 0 }], tags := [],
          ingredients := [], items := [], categories := [], recipes := [],
          nextUnitId := 2, nextTagId := 1, nextIngredientId := 1, nextItemId := 1,
          nextCategoryId := 1, nextRecipeId := 1 } 5
        { id := some 7, name := none, grams := none }
      = ({ units := [{ id := 1, name := some "g", grams := some 0 }], tags := [],
           ingredients := [], items := [], categories := [], recipes := [],
           nextUnitId := 2, nextTagId := 1, nextIngredientId := 1, nextItemId := 1,
           nextCategoryId := 1, nextRecipeId := 1 },
         .error (.http 404 (metaclassRepr ++ " id=7 not found")))
    ∧ ∀ resource : String,
        metaclassRepr ++ " id=7 not found" ≠ resource ++ " id=5 not found" := by
  refine ⟨rfl, append_ne_of_not_suffix (by decide)⟩

/-- A payload tag whose `session.get` resolution comes back null. -/
def tagUnresolved (db : DB) (t : TagPayload) : Bool :=
  match t.id with
  | some j => (findTag db j).isNone
  | none => true

theorem resolve_tags_error (db : DB) :
    ∀ {ts : List TagPayload}, (∃ t ∈ ts, tagUnresolved db t = true) →
      ∃ t ∈ ts, tagUnresolved db t = true ∧
        categories_resolve_tags db ts
          = .error (.http 400 ("Tag id=" ++ optIdStr t.id ++ " not found")) := by
  intro ts hex
  induction ts with
  | nil => simp at hex
  | cons t rest ih =>
    cases hid : t.id with
    | none =>
      refine ⟨t, by simp, by simp [tagUnresolved, hid], ?_⟩
      simp [categories_resolve_tags, hid]
    | some j =>
      cases hf : findTag db j with
      | none =>
        refine ⟨t, by simp, by simp [tagUnresolved, hid, hf], ?_⟩
        simp [categories_resolve_tags, hid, hf]
      | some row =>
        have hrest : ∃ x ∈ rest, tagUnresolved db x = true := by
          rcases hex with ⟨x, hx, hux⟩
          rcases List.mem_cons.mp hx with h1 | h2
          · subst h1
            simp [tagUnresolved, hid, hf] at hux
          · exact ⟨x, h2, hux⟩
        rcases ih hrest with ⟨x, hx, hux, heq⟩
        refine ⟨x, by simp [hx], hux, ?_⟩
        simp [categories_resolve_tags, hid, hf, heq, Except.map]

/-- **C9.** Updating an existing category with a payload containing an
unresolvable tag id fails with a 400 `"Tag id={id} not found"` before any
mutation: the returned state is exactly the input state, so the category's
stored fields and tag links are untouched. -/
theorem claim_C9 (db : DB) (cid : Nat) (d : CategoryPayload) (row : CategoryRow)
    (hfind : findCategory db cid = some row)
    (hbad : ∃ t ∈ d.tags, tagUnresolved db t = true) :
    ∃ t ∈ d.tags, tagUnresolved db t = true ∧
      categories_update db cid d
        = (db, .error (.http 400 ("Tag id=" ++ optIdStr t.id ++ " not found"))) := by
  rcases resolve_tags_error db hbad with ⟨t, ht, hut, heq⟩
  refine ⟨t, ht, hut, ?_⟩
  simp [categories_update, hfind, category_fill_model, heq, Except.map]

/-- Witness for C9: updating category 1 with tag id 5 absent from the tag
table fails with the 400 and leaves the state unchanged. -/
theorem claim_C9_witness :
    ∃ t ∈ [({ id := some 5, name := none } : TagPayload)],
      tagUnresolved
        { units := [], tags := [], ingredients := [], items := [],
          categories := [{ id := 1, name := some "Dinner", tagIds := [] }], recipes := [],
          nextUnitId := 1, nextTagId := 1, nextIngredientId := 1, nextItemId := 1,
          nextCategoryId := 2, nextRecipeId := 1 } t = true ∧
      categories_update
        { units := [], tags := [], ingredients := [], items := [],
          categories := [{ id := 1, name := some "Dinner", tagIds := [] }], recipes := [],
          nextUnitId := 1, nextTagId := 1, nextIngredientId := 1, nextItemId := 1,
          nextCategoryId := 2, nextRecipeId := 1 } 1
        { id := none, name := some "Supper", tags := [{ id := some 5, name := none }] }
        = ({ units := [], tags := [], ingredients := [], items := [],
             categories := [{ id := 1, name := some "Dinner", tagIds := [] }], recipes := [],
             nextUnitId := 1, nextTagId := 1, nextIngredientId := 1, nextItemId := 1,
             nextCategoryId := 2, nextRecipeId := 1 },
           .error (.http 400 ("Tag id=" ++ optIdStr t.id ++ " not found"))) :=
  claim_C9
    { units := [], tags := [], ingredients := [], items := [],
      categories := [{ id := 1, name := some "Dinner", tagIds := [] }], recipes := [],
      nextUnitId := 1, nextTagId := 1, nextIngredientId := 1, nextItemId := 1,
      nextCategoryId := 2, nextRecipeId := 1 } 1
    { id := none, name := some "Supper", tags := [{ id := some 5, name := none }] }
    { id := 1, name := some "Dinner", tagIds := [] } rfl
    ⟨{ id := some 5, name := none }, by simp, rfl⟩

theorem infix_data_append_left {t b : String} (a : String) (h : t.data <:+: b.data) :
    t.data <:+: (a ++ b).data := by
  rcases h with ⟨s, u, hsu⟩
  refine ⟨a.data ++ s, u, ?_⟩
  rw [String.data_append, ← hsu]
  simp [List.append_assoc]

theorem mem_data_infix_joinComma {t : String} : ∀ {l : List String}, t ∈ l →
    t.data <:+: (joinComma l).data := by
  intro l h
  induction l with
  | nil => simp at h
  | cons a rest ih =>
    rcases List.mem_cons.mp h with h1 | h2
    · subst h1
      cases rest with
      | nil => exact ⟨[], [], by simp [joinComma]⟩
      | cons b r2 =>
        refine ⟨[], (", " ++ joinComma (b :: r2)).data, ?_⟩
        show [] ++ t.data ++ (", " ++ joinComma (b :: r2)).data = (joinComma (t :: b :: r2)).data
        simp [joinComma, String.data_append, List.append_assoc]
    · cases rest with
      | nil => simp at h2
      | cons b r2 =>
        have hin := ih h2
        rw [show joinComma (a :: b :: r2) = (a ++ ", ") ++ joinComma (b :: r2) from by
          simp [joinComma, String.append_assoc]]
        exact infix_data_append_left (a ++ ", ") hin

theorem eraseP_id_not_mem {l : List IngredientRow} {j : Nat}
    (hnd : (l.map (fun i => i.id)).Nodup) :
    j ∉ (l.eraseP (fun i => i.id == j)).map (fun i => i.id) := by
  induction l with
  | nil => simp
  | cons a t ih =>
    simp only [List.map_cons, List.nodup_cons] at hnd
    by_cases hpa : a.id = j
    · rw [List.eraseP_cons_of_pos (by simp [hpa])]
      intro hmem
      exact hnd.1 (by rw [hpa]; exact hmem)
    · rw [List.eraseP_cons_of_neg (by simp [hpa])]
      simp only [List.map_cons, List.mem_cons]
      rintro (h1 | h2)
      · exact hpa h1.symm
      · exact ih hnd.2 h2

/-- **C5.** Deleting an ingredient referenced by an item attached to at least
one recipe fails with a 400 conflict whose message contains every such
recipe's title and leaves the state (hence the ingredient) untouched; deleting
an ingredient with no recipe-attached referencing item succeeds and removes
its row (the only row with that id, when ids are unique). -/
theorem claim_C5 (db : DB) (j : Nat) (ing : IngredientRow)
    (hfind : findIngredient db j = some ing) :
    (blockingTitles db j ≠ [] →
      ingredients_delete_single db j
        = (db, .error (.http 400
            ("Ingredient still attached to some recipes: " ++ joinComma (blockingTitles db j))))
      ∧ ∀ it ∈ db.items, it.ingredient_id = some j →
          ∀ r ∈ db.recipes, it.id ∈ r.itemIds →
            (r.title.getD "None").data <:+:
              ("Ingredient still attached to some recipes: "
                ++ joinComma (blockingTitles db j)).data)
    ∧ (blockingTitles db j = [] →
      ingredients_delete_single db j
        = ({ db with ingredients := db.ingredients.eraseP (fun i => i.id == j) }, .ok ())
      ∧ ((db.ingredients.map (fun i => i.id)).Nodup →
          j ∉ (db.ingredients.eraseP (fun i => i.id == j)).map (fun i => i.id))) := by
  constructor
  · intro hne
    constructor
    · have hie : (blockingTitles db j).isEmpty = false := by
        cases h : blockingTitles db j with
        | nil => exact absurd h hne
        | cons x xs => simp
      simp [ingredients_delete_single, hfind, hie]
    · intro it hit hij r hr hmem
      have htitle : (r.title.getD "None") ∈ blockingTitles db j := by
        unfold blockingTitles
        refine List.mem_flatMap.mpr ⟨it, List.mem_filter.mpr ⟨hit, by simp [hij]⟩, ?_⟩
        refine List.mem_map.mpr ⟨r, List.mem_filter.mpr ⟨hr, ?_⟩, rfl⟩
        simpa using hmem
      exact infix_data_append_left _ (mem_data_infix_joinComma htitle)
  · intro hnil
    constructor
    · have hie : (blockingTitles db j).isEmpty = true := by simp [hnil]
      simp [ingredients_delete_single, hfind, hie]
    · intro hnd
      exact eraseP_id_not_mem hnd

/-- Sample ingredient: Tomato, id 20. -/
def ingTomato : IngredientRow :=
  { id := 20, name := some "Tomato", approx_per_piece := some 0, energy := some 18,
    fats := some 0, carbs := some 4, proteins := some 1, fibres := some 1, salt := some 0,
    is_liquid := some false, density := some 1000 }

/-- Sample ingredient: Salt, id 30, referenced by nothing. -/
def ingSalt : IngredientRow :=
  { id := 30, name := some "Salt", approx_per_piece := some 0, energy := some 0,
    fats := some 0, carbs := some 0, proteins := some 0, fibres := some 0, salt := some 100,
    is_liquid := some false, density := some 1000 }

/-- Sample ingredient-item: 400 g of Tomato, id 10. -/
def itemTomato : ItemRow :=
  { id := 10, ingredient_id := some 20, amount := some 400, unit_id := some 1,
    note := none, exclude := some false }

/-- Sample recipe "Soup", id 1, owning item 10. -/
def recipeSoup : RecipeRow :=
  { id := 1, title := some "Soup", subtitle := none, source_name := none,
    source := none, draft := some false, portions := some 4, body := none,
    itemIds := [10], tagIds := [] }

/-- Sample state: recipe "Soup" owns item 10, which references ingredient 20
(Tomato) and unit 1 (g); ingredient 30 (Salt) is unreferenced. -/
def dbSoup : DB :=
  { units := [{ id := 1, name := some "g", grams := some 0 }],
    tags := [],
    ingredients := [ingTomato, ingSalt],
    items := [itemTomato],
    categories := [],
    recipes := [recipeSoup],
    nextUnitId := 2, nextTagId := 1, nextIngredientId := 31, nextItemId := 11,
    nextCategoryId := 1, nextRecipeId := 2 }

/-- Witness for C5: deleting Tomato fails with a message containing "Soup" and
changes nothing; deleting Salt succeeds and removes row 30. -/
theorem claim_C5_witness :
    ingredients_delete_single dbSoup 20
      = (dbSoup, .error (.http 400 "Ingredient still attached to some recipes: Soup"))
    ∧ ("Soup".data <:+: ("Ingredient still attached to some recipes: Soup").data)
    ∧ ingredients_delete_single dbSoup 30
      = ({ dbSoup with ingredients := [ingTomato] }, .ok ())
    ∧ (30 : Nat) ∉ [ingTomato].map (fun i => i.id) := by
  have h20 := (claim_C5 dbSoup 20 ingTomato rfl).1 (by decide)
  have h30 := (claim_C5 dbSoup 30 ingSalt rfl).2 (by decide)
  refine ⟨h20.1.trans (by decide), ?_, ?_, by decide⟩
  · have hinf := h20.2 itemTomato (by decide) rfl recipeSoup (by decide) (by decide)
    rcases hinf with ⟨s, u, hsu⟩
    refine ⟨s, u, hsu.trans ?_⟩
    decide
  · refine h30.1.trans ?_
    decide

theorem build_items_shape : ∀ {l : List ItemPayload} {db : DB} {pend : List PendingItem},
    (recipes_build_items db l).2 = .ok pend →
    pend.map (fun p => (p.amount, p.note)) = l.map (fun ip => (ip.amount, ip.note)) := by
  intro l
  induction l with
  | nil =>
    intro db pend h
    simp [recipes_build_items] at h
    simp [← h]
  | cons ip rest ih =>
    intro db pend h
    simp only [recipes_build_items] at h
    cases hu : (units_create_or_update db ip.unit).2 with
    | error e => rw [hu] at h; simp at h
    | ok u =>
      rw [hu] at h
      cases hi : (ingredients_create_or_update (units_create_or_update db ip.unit).1
          ip.ingredient).2 with
      | error e => rw [hi] at h; simp at h
      | ok ingId =>
        rw [hi] at h
        cases hr : (recipes_build_items
            (ingredients_create_or_update (units_create_or_update db ip.unit).1 ip.ingredient).1
            rest).2 with
        | error e => rw [hr] at h; simp at h
        | ok items =>
          rw [hr] at h
          simp only [Except.ok.injEq] at h
          rw [← h]
          simp [ih hr]

theorem mem_materializeItems_id_ge : ∀ {pend : List PendingItem} {s i : Nat},
    i ∈ (materializeItems s pend).map (fun it => it.id) → s ≤ i := by
  intro pend
  induction pend with
  | nil => intro s i h; simp [materializeItems] at h
  | cons p rest ih =>
    intro s i h
    simp only [materializeItems, List.map_cons, List.mem_cons] at h
    rcases h with h1 | h2
    · subst h1; exact Nat.le_refl _
    · have := ih h2; omega

theorem recipes_create_spec (db : DB) (d : RecipePayload) (pend : List PendingItem)
    (hbuild : (recipes_build_items db d.ingredients).2 = .ok pend) :
    ∃ db2 ret rrow,
      recipes_create db d = (db2, .ok ret)
      ∧ db2.recipes = db.recipes ++ [rrow]
      ∧ rrow.itemIds = (materializeItems db.nextItemId pend).map (fun it => it.id)
      ∧ rrow.tagIds = (materializeTags db.nextTagId
          (recipes_build_tags (recipes_build_items db d.ingredients).1 d.tags)).2.1
      ∧ pend.map (fun p => (p.amount, p.note))
          = d.ingredients.map (fun ip => (ip.amount, ip.note))
      ∧ (∀ it ∈ db.items, it ∈ db2.items)
      ∧ (∀ t ∈ db.tags, t ∈ db2.tags) := by
  obtain ⟨hftags, hfitems, hfcats, hfrecs, hfntag, hfnitem, hfncat, hfnrec⟩ :=
    build_items_frame d.ingredients db
  have hfill : recipes_fill_model db (some emptyRecipeRow) d
      = ((recipes_build_items db d.ingredients).1,
         .ok (recipe_fill_scalars emptyRecipeRow d, pend,
           recipes_build_tags (recipes_build_items db d.ingredients).1 d.tags)) := by
    simp only [recipes_fill_model, hbuild]
  set db1 := (recipes_build_items db d.ingredients).1 with hdb1
  set refs := recipes_build_tags db1 d.tags with hrefs
  set itemRows := materializeItems db1.nextItemId pend with hitemRows
  set tstep := materializeTags db1.nextTagId refs with htstep
  set newId := if d.id.isSome then (recipe_fill_scalars emptyRecipeRow d).id else db1.nextRecipeId
    with hnewId
  set rrow := recipe_insert_defaults
    { recipe_fill_scalars emptyRecipeRow d with
      id := newId,
      itemIds := itemRows.map (fun it => it.id),
      tagIds := tstep.2.1 } with hrrow
  set db2 := { db1 with
    items := db1.items ++ itemRows,
    tags := db1.tags ++ tstep.1,
    recipes := db1.recipes ++ [rrow],
    nextItemId := db1.nextItemId + pend.length,
    nextTagId := tstep.2.2,
    nextRecipeId := if d.id.isSome then db1.nextRecipeId else db1.nextRecipeId + 1 } with hdb2
  have hmem : rrow ∈ db2.recipes := by
    rw [hdb2]
    exact List.mem_append_right _ (List.mem_singleton.mpr rfl)
  have hsome : (db2.recipes.find? (fun x => x.id == rrow.id)).isSome := by
    rw [List.find?_isSome]
    exact ⟨rrow, hmem, by simp⟩
  rcases Option.isSome_iff_exists.mp hsome with ⟨r2, hr2⟩
  have hr2' : findRecipe db2 rrow.id = some r2 := hr2
  refine ⟨db2, r2.id, rrow, ?_, ?_, ?_, ?_, build_items_shape hbuild, ?_, ?_⟩
  · simp only [recipes_create, hfill, ← hdb1, ← hrefs, ← hitemRows, ← htstep, ← hnewId,
      ← hrrow, ← hdb2, hr2']
  · rw [hdb2]
    simp only []
    rw [hfrecs]
  · rw [hrrow]
    simp only [recipe_insert_defaults]
    rw [hitemRows, hfnitem]
  · rw [hrrow]
    simp only [recipe_insert_defaults]
    rw [htstep, hfntag, hrefs, hdb1]
  · intro it hit
    rw [hdb2]
    simp only []
    rw [hfitems]
    exact List.mem_append_left _ hit
  · intro t ht
    rw [hdb2]
    simp only []
    rw [hftags]
    exact List.mem_append_left _ ht


/-- **C1 (amended).** On every recipe update or create whose nested builds
succeed, the persisted ingredient collection is exactly the freshly built item
list and the tag collection exactly the built tag list; every previously
attached ingredient-item is detached from the recipe, but its row remains
persisted (the `ingredients` relationship has `cascade="all"` without
`delete-orphan`, so detached items are orphaned, not destroyed), and every
previously attached tag likewise remains persisted as a standalone Tag. -/
theorem claim_C1 :
    (∀ (db : DB) (j : Nat) (d : RecipePayload) (r : RecipeRow) (pend : List PendingItem),
      findRecipe db j = some r →
      (recipes_build_items db d.ingredients).2 = .ok pend →
      (∀ i ∈ r.itemIds, i < db.nextItemId) →
      ∃ db2 ret rec2,
        recipes_update db j d = (db2, .ok ret)
        ∧ db2.recipes = replaceFirst db.recipes (fun x => x.id == j) rec2
        ∧ rec2 = { recipe_fill_scalars r d with
            itemIds := (materializeItems db.nextItemId pend).map (fun it => it.id),
            tagIds := (materializeTags db.nextTagId
              (recipes_build_tags (recipes_build_items db d.ingredients).1 d.tags)).2.1 }
        ∧ pend.map (fun p => (p.amount, p.note))
            = d.ingredients.map (fun ip => (ip.amount, ip.note))
        ∧ (∀ oldId ∈ r.itemIds,
            oldId ∉ (materializeItems db.nextItemId pend).map (fun it => it.id))
        ∧ (∀ it ∈ db.items, it ∈ db2.items)
        ∧ (∀ t ∈ db.tags, t ∈ db2.tags))
    ∧ (∀ (db : DB) (d : RecipePayload) (pend : List PendingItem),
      (recipes_build_items db d.ingredients).2 = .ok pend →
      ∃ db2 ret rrow,
        recipes_create db d = (db2, .ok ret)
        ∧ db2.recipes = db.recipes ++ [rrow]
        ∧ rrow.itemIds = (materializeItems db.nextItemId pend).map (fun it => it.id)
        ∧ rrow.tagIds = (materializeTags db.nextTagId
            (recipes_build_tags (recipes_build_items db d.ingredients).1 d.tags)).2.1
        ∧ pend.map (fun p => (p.amount, p.note))
            = d.ingredients.map (fun ip => (ip.amount, ip.note))
        ∧ (∀ it ∈ db.items, it ∈ db2.items)
        ∧ (∀ t ∈ db.tags, t ∈ db2.tags)) := by
  have hcommit_fields : ∀ (db1 : DB) (j : Nat) (r' : RecipeRow) (pend : List PendingItem)
      (refs : List TagRef),
      (recipes_commit db1 j r' pend refs).recipes
        = replaceFirst db1.recipes (fun x => x.id == j)
            { r' with
              itemIds := (materializeItems db1.nextItemId pend).map (fun it => it.id),
              tagIds := (materializeTags db1.nextTagId refs).2.1 }
      ∧ (recipes_commit db1 j r' pend refs).items
          = db1.items ++ materializeItems db1.nextItemId pend
      ∧ (recipes_commit db1 j r' pend refs).tags
          = db1.tags ++ (materializeTags db1.nextTagId refs).1 := by
    intro db1 j r' pend refs
    exact ⟨rfl, rfl, rfl⟩
  constructor
  · intro db j d r pend hfind hbuild hfresh
    have hframe := build_items_frame d.ingredients db
    obtain ⟨hftags, hfitems, hfcats, hfrecs, hfntag, hfnitem, hfncat, hfnrec⟩ := hframe
    have hfind' : db.recipes.find? (fun x => x.id == j) = some r := hfind
    have hmemrec : ∃ x ∈ (recipes_build_items db d.ingredients).1.recipes,
        (fun x : RecipeRow => x.id == j) x = true := by
      rw [hfrecs]
      have hp := List.find?_some hfind'
      exact ⟨r, List.mem_of_find?_eq_some hfind', hp⟩
    have hmem2 : ({ recipe_fill_scalars r d with
        itemIds := (materializeItems (recipes_build_items db d.ingredients).1.nextItemId pend).map
          (fun it => it.id),
        tagIds := (materializeTags (recipes_build_items db d.ingredients).1.nextTagId
          (recipes_build_tags (recipes_build_items db d.ingredients).1 d.tags)).2.1 } : RecipeRow)
        ∈ (recipes_commit (recipes_build_items db d.ingredients).1 j (recipe_fill_scalars r d)
            pend (recipes_build_tags (recipes_build_items db d.ingredients).1 d.tags)).recipes := by
      rw [(hcommit_fields _ _ _ _ _).1]
      exact mem_replaceFirst hmemrec
    have hsome : ((recipes_commit (recipes_build_items db d.ingredients).1 j
        (recipe_fill_scalars r d) pend
        (recipes_build_tags (recipes_build_items db d.ingredients).1 d.tags)).recipes.find?
          (fun x => x.id == (recipe_fill_scalars r d).id)).isSome := by
      rw [List.find?_isSome]
      refine ⟨_, hmem2, by simp⟩
    rcases Option.isSome_iff_exists.mp hsome with ⟨r2, hr2⟩
    have hr2' : findRecipe (recipes_commit (recipes_build_items db d.ingredients).1 j
        (recipe_fill_scalars r d) pend
        (recipes_build_tags (recipes_build_items db d.ingredients).1 d.tags))
        (recipe_fill_scalars r d).id = some r2 := hr2
    refine ⟨recipes_commit (recipes_build_items db d.ingredients).1 j
        (recipe_fill_scalars r d) pend
        (recipes_build_tags (recipes_build_items db d.ingredients).1 d.tags),
      r2.id,
      { recipe_fill_scalars r d with
        itemIds := (materializeItems db.nextItemId pend).map (fun it => it.id),
        tagIds := (materializeTags db.nextTagId
          (recipes_build_tags (recipes_build_items db d.ingredients).1 d.tags)).2.1 },
      ?_, ?_, rfl, build_items_shape hbuild, ?_, ?_, ?_⟩
    · simp only [recipes_update, hfind, recipes_fill_model, hbuild, hr2']
    · rw [(hcommit_fields _ _ _ _ _).1, hfrecs, hfnitem, hfntag]
    · intro oldId hold hmem
      have h1 := hfresh oldId hold
      have h2 := mem_materializeItems_id_ge hmem
      omega
    · intro it hit
      rw [(hcommit_fields _ _ _ _ _).2.1, hfitems]
      exact List.mem_append_left _ hit
    · intro t ht
      rw [(hcommit_fields _ _ _ _ _).2.2, hftags]
      exact List.mem_append_left _ ht
  · intro db d pend hbuild
    exact recipes_create_spec db d pend hbuild

/-- Sample update payload for recipe "Soup": one fresh 500 g Tomato line item
(unit addressed by name, ingredient by id), no tags. -/
def payloadTomato : RecipePayload :=
  { id := none, title := none, subtitle := none, source_name := none, source := none,
    draft := none, portions := none, body := none,
    ingredients := [
      { amount := some 500, note := some "diced",
        unit := { id := none, name := some "g", grams := some 0 },
        ingredient := { id := some 20, name := some "Tomato", energy := some 18,
                        fats := some 0, carbs := some 4, proteins := some 1,
                        fibres := some 1, salt := some 0, is_liquid := some false,
                        density := some 1000 } }],
    tags := [] }

/-- The pending line item the synchronizer builds from `payloadTomato`. -/
def pendTomato : PendingItem :=
  { amount := some 500, note := some "diced", unit_id := none, ingredient_id := some 20 }

/-- Witness for C1 (amended): updating "Soup" with the single-tomato payload. -/
theorem claim_C1_witness :
    ∃ db2 ret rec2,
      recipes_update dbSoup 1 payloadTomato = (db2, .ok ret)
      ∧ db2.recipes = replaceFirst dbSoup.recipes (fun x => x.id == 1) rec2
      ∧ rec2 = { recipe_fill_scalars recipeSoup payloadTomato with
                 itemIds := (materializeItems dbSoup.nextItemId [pendTomato]).map
                   (fun it => it.id),
                 tagIds := (materializeTags dbSoup.nextTagId
                   (recipes_build_tags (recipes_build_items dbSoup payloadTomato.ingredients).1
                     payloadTomato.tags)).2.1 }
      ∧ [pendTomato].map (fun p => (p.amount, p.note))
          = payloadTomato.ingredients.map (fun ip => (ip.amount, ip.note))
      ∧ (∀ oldId ∈ recipeSoup.itemIds,
          oldId ∉ (materializeItems dbSoup.nextItemId [pendTomato]).map (fun it => it.id))
      ∧ (∀ it ∈ dbSoup.items, it ∈ db2.items)
      ∧ (∀ t ∈ dbSoup.tags, t ∈ db2.tags) :=
  claim_C1.1 dbSoup 1 payloadTomato recipeSoup [pendTomato] rfl (by decide) (by decide)

/-- **C1 counterexample.** The claim asserts a detached ingredient-item is
"destroyed".  Updating "Soup" with the single-tomato payload succeeds and
fully detaches item 10 from every recipe — yet item 10's row is still
persisted in the item table (orphaned, not destroyed). -/
theorem claim_C1_counterexample :
    (recipes_update dbSoup 1 payloadTomato).2 = .ok 1
    ∧ itemTomato ∈ (recipes_update dbSoup 1 payloadTomato).1.items
    ∧ ∀ rec ∈ (recipes_update dbSoup 1 payloadTomato).1.recipes,
        (10 : Nat) ∉ rec.itemIds := by
  refine ⟨by decide, by decide, by decide⟩
